import Mathlib

/-!
Shallow embedding of the `investment-income-based` Soroban contract
(`src/contracts/investment-income-based/src/`): the commission rate
schedule and deposit split (`balance.rs`), the `Investment` lifecycle
(`investment.rs`), the claim scheduler (`claim.rs`), the validators
(`validation.rs`) and the public contract operations (`contract.rs`)
over an explicit storage state.

Rust `i128` values are modelled as `Int` (the contract treats overflow
as fatal), `u32`/`u64` as `Nat`.  Rust signed division truncates toward
zero, so `i128` division is `Int.tdiv`; `u32`/`u64` division is `Nat`
division.
-/

namespace Equillar

/-- Modelled from the spec: `src/constants.rs` is declared in `lib.rs` but is
not in the source tree.  The spec fixes one day = 86400 seconds and one
month = a fixed 30-day-equivalent second count. -/
def SECONDS_IN_DAY : Nat := 86400

/-- Modelled from the spec: one month is a fixed 30-day second count
(not calendar-month-aware). -/
def SECONDS_IN_MONTH : Nat := 30 * 86400

/-- Modelled from the spec: one week in seconds. -/
def SECONDS_IN_WEEK : Nat := 7 * 86400

/-! ## balance.rs : rate schedule -/

def LOWER_AMOUNT_FOR_COMMISSION_REDUCTION : Int := 100

def LOWER_DIVISOR : Nat := 10

def UPPER_DIVISOR : Nat := 60

def AMOUNT_PER_COMMISSION_REDUCTION : Int := 400

/-- `calculate_rate_denominator` from `balance.rs` lines 9-24. -/
def calculate_rate_denominator (amount : Int) (decimals : Nat) : Nat :=
  let scale_factor : Int := 10 ^ decimals
  let token_amount : Int := amount.tdiv scale_factor
  if token_amount ≤ LOWER_AMOUNT_FOR_COMMISSION_REDUCTION then
    LOWER_DIVISOR
  else
    let a : Int := (token_amount - LOWER_AMOUNT_FOR_COMMISSION_REDUCTION).tdiv
      AMOUNT_PER_COMMISSION_REDUCTION
    if a > (UPPER_DIVISOR : Int) then
      UPPER_DIVISOR
    else
      LOWER_DIVISOR + a.toNat

/-! ## Wad fixed-point arithmetic

`Wad` comes from the external crate `stellar_contract_utils::math::wad`,
which is not part of this repository. -/

/-- Modelled from the spec: the fixed-point scale of a wad value
(18 decimals, the standard wad scale the external crate is named after). -/
def WAD : Int := 10 ^ 18

/-- Modelled from the spec: `Wad::from_token_amount` scales a token amount of
`decimals` decimals up to the wad scale. -/
def wadFromTokenAmount (amount : Int) (decimals : Nat) : Int :=
  amount * 10 ^ (18 - decimals)

/-- Modelled from the spec: `Wad::from_ratio` is the exact fixed-point ratio
`n / d` at wad scale, truncated toward zero. -/
def wadFromRatio (n d : Int) : Int :=
  (n * WAD).tdiv d

/-- Modelled from the spec: wad multiplication, truncated toward zero. -/
def wadMul (a b : Int) : Int :=
  (a * b).tdiv WAD

/-- Modelled from the spec: `Wad::to_token_amount` converts back to the
token's integer scale, truncating toward zero. -/
def wadToTokenAmount (w : Int) (decimals : Nat) : Int :=
  w.tdiv (10 ^ (18 - decimals))

/-! ## balance.rs : Amount and ContractBalance -/

structure Amount where
  amount_to_invest : Int
  amount_to_reserve_fund : Int
  amount_to_commission : Int
deriving DecidableEq

/-- `Amount::get_invested_amount` from `balance.rs`. -/
def Amount.get_invested_amount (a : Amount) : Int :=
  a.amount_to_invest + a.amount_to_reserve_fund

/-- `Amount::from_investment` from `balance.rs` lines 134-153 (the wad
operations are modelled from the spec, see above). -/
def Amount.from_investment (amount : Int) (i_rate : Nat) (decimals : Nat) : Amount :=
  let rate_denominator : Nat := calculate_rate_denominator amount decimals
  let amount_wad := wadFromTokenAmount amount decimals
  let commission_rate := wadFromRatio (i_rate : Int) ((rate_denominator : Int) * 10000)
  let reserve_rate := wadFromRatio 5 100
  let amount_to_commission_wad := wadMul amount_wad commission_rate
  let amount_to_reserve_fund_wad := wadMul amount_wad reserve_rate
  let amount_to_invest_wad :=
    amount_wad - amount_to_commission_wad - amount_to_reserve_fund_wad
  { amount_to_commission := wadToTokenAmount amount_to_commission_wad decimals
    amount_to_reserve_fund := wadToTokenAmount amount_to_reserve_fund_wad decimals
    amount_to_invest := wadToTokenAmount amount_to_invest_wad decimals }

structure ContractBalance where
  reserve : Int
  project : Int
  comission : Int
  received_so_far : Int
  payments : Int
  reserve_contributions : Int
  project_withdrawals : Int
  moved_from_project_to_reserve : Int
deriving DecidableEq

/-- `ContractBalance::new` from `balance.rs`. -/
def ContractBalance.new : ContractBalance :=
  { reserve := 0
    project := 0
    comission := 0
    received_so_far := 0
    payments := 0
    reserve_contributions := 0
    project_withdrawals := 0
    moved_from_project_to_reserve := 0 }

/-- `ContractBalance::sum` from `balance.rs`. -/
def ContractBalance.sum (cb : ContractBalance) : Int :=
  cb.comission + cb.project + cb.reserve

/-- `ContractBalance::recalculate_from_investment` from `balance.rs` lines 74-79. -/
def ContractBalance.recalculate_from_investment (cb : ContractBalance) (amounts : Amount) :
    ContractBalance :=
  { cb with
    comission := cb.comission + amounts.amount_to_commission
    reserve := cb.reserve + amounts.amount_to_reserve_fund
    project := cb.project + amounts.amount_to_invest
    received_so_far :=
      cb.received_so_far + (amounts.amount_to_reserve_fund + amounts.amount_to_invest) }

/-- `ContractBalance::recalculate_from_company_contribution` from `balance.rs`. -/
def ContractBalance.recalculate_from_company_contribution (cb : ContractBalance)
    (amount : Int) : ContractBalance :=
  { cb with
    reserve := cb.reserve + amount
    reserve_contributions := cb.reserve_contributions + amount }

/-- `ContractBalance::recalculate_from_company_withdrawal` from `balance.rs`. -/
def ContractBalance.recalculate_from_company_withdrawal (cb : ContractBalance)
    (amount : Int) : ContractBalance :=
  { cb with
    project := cb.project - amount
    project_withdrawals := cb.project_withdrawals + amount }

/-- `ContractBalance::recalculate_from_payment_to_investor` from `balance.rs` lines 91-94. -/
def ContractBalance.recalculate_from_payment_to_investor (cb : ContractBalance)
    (amount : Int) : ContractBalance :=
  { cb with
    reserve := cb.reserve - amount
    payments := cb.payments + amount }

/-- `ContractBalance::recalculate_from_project_to_reserver_movement` from `balance.rs`. -/
def ContractBalance.recalculate_from_project_to_reserver_movement (cb : ContractBalance)
    (amount : Int) : ContractBalance :=
  { cb with
    project := cb.project - amount
    reserve := cb.reserve + amount
    moved_from_project_to_reserve := cb.moved_from_project_to_reserve + amount }

/-! ## data.rs -/

inductive State where
  | Active
  | FundsReached
deriving DecidableEq

inductive InvestmentReturnType where
  | ReverseLoan
  | Coupon
deriving DecidableEq

/-- `ContractData` from `data.rs` (the `token` and `project_address` fields are
opaque addresses consumed only by the external token client and are omitted). -/
structure ContractData where
  interest_rate : Nat
  claim_block_days : Nat
  state : State
  return_type : InvestmentReturnType
  return_months : Nat
  min_per_investment : Int
  goal : Int
deriving DecidableEq

/-! ## investment.rs -/

inductive InvestmentStatus where
  | Blocked
  | Claimable
  | CashFlowing
  | Finished
deriving DecidableEq

structure Investment where
  deposited : Int
  commission : Int
  accumulated_interests : Int
  total : Int
  claimable_ts : Nat
  last_transfer_ts : Nat
  status : InvestmentStatus
  regular_payment : Int
  paid : Int
  payments_transferred : Nat
  token_id : Nat
deriving DecidableEq

/-- `Investment::calculate_initial_status` from `investment.rs`. -/
def Investment.calculate_initial_status (claim_block_days : Nat) : InvestmentStatus :=
  if claim_block_days > 0 then .Blocked else .Claimable

/-- `Investment::calculate_claimable_ts` from `investment.rs` (the ledger
timestamp is the explicit `now` argument). -/
def Investment.calculate_claimable_ts (now : Nat) (claim_block_days : Nat) : Nat :=
  now + claim_block_days * SECONDS_IN_DAY

/-- `Investment::calculate_regular_payment` from `investment.rs`. -/
def Investment.calculate_regular_payment (interest_gains total_gains : Int)
    (return_months : Nat) (return_type : InvestmentReturnType) : Int :=
  match return_type with
  | .Coupon => interest_gains.tdiv (return_months : Int)
  | .ReverseLoan => total_gains.tdiv (return_months : Int)

/-- `Investment::new` from `investment.rs` lines 25-53. -/
def Investment.new (now : Nat) (cd : ContractData) (amount : Int) (decimals : Nat)
    (token_id : Nat) : Investment :=
  let amounts := Amount.from_investment amount cd.interest_rate decimals
  let real_amount := amounts.amount_to_invest + amounts.amount_to_reserve_fund
  let current_interest := ((real_amount * (cd.interest_rate : Int)).tdiv 100).tdiv 100
  let total_gains := real_amount + current_interest
  { deposited := real_amount
    commission := amounts.amount_to_commission
    accumulated_interests := current_interest
    total := total_gains
    claimable_ts := Investment.calculate_claimable_ts now cd.claim_block_days
    last_transfer_ts := 0
    status := Investment.calculate_initial_status cd.claim_block_days
    regular_payment :=
      Investment.calculate_regular_payment current_interest total_gains
        cd.return_months cd.return_type
    paid := 0
    payments_transferred := 0
    token_id := token_id }

/-- `Investment::process_investment_payment` from `investment.rs` lines 55-78;
returns the mutated investment together with `amount_to_transfer`. -/
def Investment.process_investment_payment (self : Investment) (now : Nat)
    (contract_data : ContractData) : Investment × Int :=
  let self := if self.status ≠ InvestmentStatus.CashFlowing then
      { self with status := InvestmentStatus.CashFlowing }
    else self
  let self := { self with
    paid := self.paid + self.regular_payment
    last_transfer_ts := now
    payments_transferred := self.payments_transferred + 1 }
  let amount_to_transfer := self.regular_payment
  let is_last_payment := self.payments_transferred ≥ contract_data.return_months
  if is_last_payment then
    let self := { self with status := InvestmentStatus.Finished }
    if contract_data.return_type = InvestmentReturnType.Coupon then
      ({ self with paid := self.paid + self.deposited }, amount_to_transfer + self.deposited)
    else
      (self, amount_to_transfer)
  else
    (self, amount_to_transfer)

/-- `Investment::process_multiple_payments` from `investment.rs` lines 104-131. -/
def Investment.process_multiple_payments (self : Investment) (now : Nat)
    (contract_data : ContractData) (num_payments : Nat) : Investment × Int :=
  let self := if self.status ≠ InvestmentStatus.CashFlowing then
      { self with status := InvestmentStatus.CashFlowing }
    else self
  let total_amount : Int := self.regular_payment * (num_payments : Int)
  let self := { self with
    paid := self.paid + total_amount
    last_transfer_ts := now
    payments_transferred := self.payments_transferred + num_payments }
  let is_last_payment := self.payments_transferred ≥ contract_data.return_months
  if is_last_payment then
    let self := { self with status := InvestmentStatus.Finished }
    if contract_data.return_type = InvestmentReturnType.Coupon then
      ({ self with paid := self.paid + self.deposited }, total_amount + self.deposited)
    else
      (self, total_amount)
  else
    (self, total_amount)

/-- Sequential application of `process_investment_payment`, accumulating the
transferred amounts; the reference side of the batching equivalence. -/
def iterate_payments (inv : Investment) (now : Nat) (cd : ContractData) :
    Nat → Investment × Int
  | 0 => (inv, 0)
  | n + 1 =>
    let r1 := inv.process_investment_payment now cd
    let r2 := iterate_payments r1.1 now cd n
    (r2.1, r1.2 + r2.2)

/-! ## claim.rs -/

structure Claim where
  next_transfer_ts : Nat
  amount_to_pay : Int
deriving DecidableEq

/-- `calculate_next_claim` from `claim.rs` lines 18-26. -/
def calculate_next_claim (now : Nat) (investment : Investment) : Claim :=
  { next_transfer_ts :=
      if investment.last_transfer_ts > 0 then
        investment.last_transfer_ts + SECONDS_IN_MONTH
      else
        now + SECONDS_IN_MONTH
    amount_to_pay := investment.regular_payment }

/-- `calculate_claimable_payments` from `claim.rs` lines 29-42.  The u64
quotient `elapsed / SECONDS_IN_MONTH` is narrowed by a silent `as u32` cast
before the `+ 1`, which wraps modulo `2 ^ 32`. -/
def calculate_claimable_payments (now : Nat) (investment : Investment)
    (return_months : Nat) : Nat :=
  let remaining := return_months - investment.payments_transferred
  let eligible :=
    if investment.last_transfer_ts = 0 then
      let elapsed := now - investment.claimable_ts
      elapsed / SECONDS_IN_MONTH % 2 ^ 32 + 1
    else
      let elapsed := now - investment.last_transfer_ts
      elapsed / SECONDS_IN_MONTH % 2 ^ 32
  min eligible remaining

/-! ## validation.rs -/

inductive Error where
  | AddressInsufficientBalance
  | ContractInsufficientBalance
  | AmountLessThanMinimum
  | InterestRateMustBeGreaterThanZero
  | GoalMustBeGreaterThanZero
  | UnsupportedReturnType
  | ReturnMonthsMustBeGreaterThanZero
  | MinPerInvestmentMustBeGreaterThanZero
  | AddressHasNotInvested
  | AddressInvestmentIsNotClaimableYet
  | AddressInvestmentIsFinished
  | AddressInvestmentNextTransferNotClaimableYet
  | ProjectBalanceInsufficientAmount
  | RecipientCannotReceivePayment
  | InvalidPaymentData
  | WouldExceedGoal
  | GoalAlreadyReached
  | AmountToInvestMustBeGreaterThanZero
deriving DecidableEq

/-- `validate_constructor_params` from `validation.rs` lines 50-63. -/
def validate_constructor_params (i_rate : Nat) (goal : Int) (return_months : Nat)
    (min_per_investment : Int) : Except Error Unit :=
  if ¬ (i_rate > 0) then .error .InterestRateMustBeGreaterThanZero
  else if ¬ (goal > 0) then .error .GoalMustBeGreaterThanZero
  else if ¬ (return_months > 0) then .error .ReturnMonthsMustBeGreaterThanZero
  else if ¬ (min_per_investment > 0) then .error .MinPerInvestmentMustBeGreaterThanZero
  else .ok ()

/-- `validate_investment_payment` from `validation.rs` lines 66-73. -/
def validate_investment_payment (now : Nat) (investment : Investment) :
    Except Error Unit :=
  if ¬ (now ≥ investment.claimable_ts) then .error .AddressInvestmentIsNotClaimableYet
  else if ¬ (investment.status ≠ InvestmentStatus.Finished) then
    .error .AddressInvestmentIsFinished
  else if ¬ (investment.last_transfer_ts = 0 ∨
      now - investment.last_transfer_ts ≥ SECONDS_IN_MONTH) then
    .error .AddressInvestmentNextTransferNotClaimableYet
  else .ok ()

/-- `validate_reserve_balance` from `validation.rs` lines 76-85. -/
def validate_reserve_balance (amount_to_transfer : Int)
    (contract_balances : ContractBalance) : Except Error Unit :=
  if ¬ (amount_to_transfer ≤ contract_balances.reserve) then
    .error .ContractInsufficientBalance
  else .ok ()

/-- `validate_investment` from `validation.rs` lines 88-100. -/
def validate_investment (amount : Int) (contract_data : ContractData)
    (investor_balance : Int) : Except Error Unit :=
  if ¬ (amount ≥ contract_data.min_per_investment) then .error .AmountLessThanMinimum
  else if ¬ (contract_data.state ≠ State.FundsReached) then .error .GoalAlreadyReached
  else if ¬ (investor_balance ≥ amount) then .error .AddressInsufficientBalance
  else if ¬ (amount > 0) then .error .AmountToInvestMustBeGreaterThanZero
  else .ok ()

/-- `validate_investment_goal` from `validation.rs` lines 103-113. -/
def validate_investment_goal (received_so_far amount_to_invest goal : Int) :
    Except Error Unit :=
  if ¬ (received_so_far + amount_to_invest ≤ goal) then .error .WouldExceedGoal
  else .ok ()

/-- `validate_withdrawal` from `validation.rs` lines 116-122. -/
def validate_withdrawal (amount : Int) (project_balance : Int) : Except Error Unit :=
  if ¬ (project_balance ≥ amount) then .error .ContractInsufficientBalance
  else .ok ()

/-- `validate_company_transfer` from `validation.rs` lines 125-135
(`token.balance(owner)` is the explicit `owner_balance` argument). -/
def validate_company_transfer (owner_balance : Int) (amount : Int) :
    Except Error Unit :=
  if ¬ (owner_balance ≥ amount) then .error .AddressInsufficientBalance
  else .ok ()

/-- `validate_move_to_reserve` from `validation.rs` lines 138-144. -/
def validate_move_to_reserve (amount : Int) (project_balance : Int) :
    Except Error Unit :=
  if ¬ (project_balance > amount) then .error .ProjectBalanceInsufficientAmount
  else .ok ()

/-- `validate_claim` from `validation.rs` lines 147-153. -/
def validate_claim (now : Nat) (investment : Investment) : Except Error Unit :=
  if ¬ (now ≥ investment.claimable_ts) then .error .AddressInvestmentIsNotClaimableYet
  else if ¬ (investment.status ≠ InvestmentStatus.Finished) then
    .error .AddressInvestmentIsFinished
  else .ok ()

/-! ## storage.rs and contract.rs

The contract's persisted state: instance/persistent key-value entries for the
configuration, the per-token investments, the claims map and the balances
(`storage.rs`).  The token client, the ledger clock and the investor balances
are external collaborators and enter the operations as explicit arguments; a
token transfer's outcome is an explicit `TransferOutcome` argument mirroring
the two-level `try_transfer` error mapping in `contract.rs`. -/

structure Storage where
  contract_data : ContractData
  investments : List (Nat × Investment)
  claims_map : List (Nat × Claim)
  balances : Option ContractBalance
deriving DecidableEq

/-- Outcome of a `try_transfer` call on the external token client. -/
inductive TransferOutcome where
  | Done
  | CannotReceive
  | InvalidData
deriving DecidableEq

/-- The `map_err` chain applied to every `try_transfer` in `contract.rs`. -/
def TransferOutcome.toResult : TransferOutcome → Except Error Unit
  | .Done => .ok ()
  | .CannotReceive => .error .RecipientCannotReceivePayment
  | .InvalidData => .error .InvalidPaymentData

def setEntry {α : Type} (l : List (Nat × α)) (k : Nat) (v : α) : List (Nat × α) :=
  (k, v) :: l.filter (fun p => p.1 ≠ k)

def getEntry {α : Type} (l : List (Nat × α)) (k : Nat) : Option α :=
  (l.find? (fun p => p.1 = k)).map Prod.snd

/-- `storage::get_investment` (the TTL bump has no observable effect here). -/
def Storage.get_investment (s : Storage) (token_id : Nat) : Option Investment :=
  getEntry s.investments token_id

/-- `storage::update_investment_with_claim` from `storage.rs`. -/
def Storage.update_investment_with_claim (s : Storage) (token_id : Nat)
    (investment : Investment) (now : Nat) : Storage :=
  { s with
    investments := setEntry s.investments token_id investment
    claims_map := setEntry s.claims_map token_id (calculate_next_claim now investment) }

/-- `storage::get_balances_or_new` from `storage.rs`. -/
def Storage.get_balances_or_new (s : Storage) : ContractBalance :=
  s.balances.getD ContractBalance.new

/-- `storage::update_contract_balances` from `storage.rs`. -/
def Storage.update_contract_balances (s : Storage) (cb : ContractBalance) : Storage :=
  { s with balances := some cb }

/-- `storage::update_contract_data` from `storage.rs`. -/
def Storage.update_contract_data (s : Storage) (cd : ContractData) : Storage :=
  { s with contract_data := cd }

/-- `InvestmentContract::invest` from `contract.rs` lines 162-204, in explicit
state-passing style: an early (error) return leaves the storage untouched. -/
def invest (s : Storage) (now : Nat) (investor_balance : Int) (decimals : Nat)
    (t : TransferOutcome) (token_id : Nat) (amount : Int) :
    Storage × Except Error Investment :=
  let cd := s.contract_data
  match validate_investment amount cd investor_balance with
  | .error e => (s, .error e)
  | .ok _ =>
    let amounts := Amount.from_investment amount cd.interest_rate decimals
    let contract_balance := s.get_balances_or_new
    match validate_investment_goal contract_balance.received_so_far
        amounts.get_invested_amount cd.goal with
    | .error e => (s, .error e)
    | .ok _ =>
      match t.toResult with
      | .error e => (s, .error e)
      | .ok _ =>
        let contract_balance := contract_balance.recalculate_from_investment amounts
        let s := s.update_contract_balances contract_balance
        let addr_investment := Investment.new now cd amount decimals token_id
        let s := s.update_investment_with_claim token_id addr_investment now
        let s :=
          if contract_balance.received_so_far ≥ cd.goal then
            s.update_contract_data { cd with state := State.FundsReached }
          else s
        (s, .ok addr_investment)

/-- `InvestmentContract::process_investor_payment` from `contract.rs`
lines 108-130. -/
def process_investor_payment (s : Storage) (now : Nat) (t : TransferOutcome)
    (token_id : Nat) : Storage × Except Error Investment :=
  let cd := s.contract_data
  match s.get_investment token_id with
  | none => (s, .error .AddressHasNotInvested)
  | some investment =>
    match validate_investment_payment now investment with
    | .error e => (s, .error e)
    | .ok _ =>
      let contract_balances := s.get_balances_or_new
      let r := investment.process_investment_payment now cd
      match validate_reserve_balance r.2 contract_balances with
      | .error e => (s, .error e)
      | .ok _ =>
        match t.toResult with
        | .error e => (s, .error e)
        | .ok _ =>
          let s := s.update_investment_with_claim token_id r.1 now
          let contract_balances :=
            contract_balances.recalculate_from_payment_to_investor r.2
          let s := s.update_contract_balances contract_balances
          (s, .ok r.1)

/-- `InvestmentContract::claim` from `contract.rs` lines 395-426. -/
def claim (s : Storage) (now : Nat) (t : TransferOutcome) (token_id : Nat) :
    Storage × Except Error Investment :=
  let cd := s.contract_data
  match s.get_investment token_id with
  | none => (s, .error .AddressHasNotInvested)
  | some investment =>
    match validate_claim now investment with
    | .error e => (s, .error e)
    | .ok _ =>
      let num_payments := calculate_claimable_payments now investment cd.return_months
      if ¬ (num_payments > 0) then
        (s, .error .AddressInvestmentNextTransferNotClaimableYet)
      else
        let contract_balances := s.get_balances_or_new
        let r := investment.process_multiple_payments now cd num_payments
        match validate_reserve_balance r.2 contract_balances with
        | .error e => (s, .error e)
        | .ok _ =>
          match t.toResult with
          | .error e => (s, .error e)
          | .ok _ =>
            let s := s.update_investment_with_claim token_id r.1 now
            let contract_balances :=
              contract_balances.recalculate_from_payment_to_investor r.2
            let s := s.update_contract_balances contract_balances
            (s, .ok r.1)

/-- `InvestmentContract::single_withdrawn` from `contract.rs` lines 245-268. -/
def single_withdrawn (s : Storage) (t : TransferOutcome) (amount : Int) :
    Storage × Except Error Bool :=
  let contract_balances := s.get_balances_or_new
  match validate_withdrawal amount contract_balances.project with
  | .error e => (s, .error e)
  | .ok _ =>
    match t.toResult with
    | .error e => (s, .error e)
    | .ok _ =>
      let contract_balances :=
        contract_balances.recalculate_from_company_withdrawal amount
      (s.update_contract_balances contract_balances, .ok true)

/-- `InvestmentContract::add_company_transfer` from `contract.rs`
lines 320-336 (`token.balance(owner)` is the `owner_balance` argument). -/
def add_company_transfer (s : Storage) (owner_balance : Int) (t : TransferOutcome)
    (amount : Int) : Storage × Except Error Bool :=
  match validate_company_transfer owner_balance amount with
  | .error e => (s, .error e)
  | .ok _ =>
    match t.toResult with
    | .error e => (s, .error e)
    | .ok _ =>
      let contract_balances :=
        s.get_balances_or_new.recalculate_from_company_contribution amount
      (s.update_contract_balances contract_balances, .ok true)

/-- `InvestmentContract::move_funds_to_the_reserve` from `contract.rs`
lines 356-365. -/
def move_funds_to_the_reserve (s : Storage) (amount : Int) :
    Storage × Except Error Bool :=
  let contract_balances := s.get_balances_or_new
  match validate_move_to_reserve amount contract_balances.project with
  | .error e => (s, .error e)
  | .ok _ =>
    let contract_balances :=
      contract_balances.recalculate_from_project_to_reserver_movement amount
    (s.update_contract_balances contract_balances, .ok true)

/-! ## Balance mutation sequences (for the conservation law)

Each constructor is one of the financial operations that mutates the
`ContractBalance`, applied with the amounts `contract.rs` passes to the
corresponding mutator; an investment split carries the raw deposit, the
nominal rate and the token decimals and goes through the real
`Amount::from_investment`. -/

inductive BalanceOp where
  | investment (amount : Int) (i_rate : Nat) (decimals : Nat)
  | companyContribution (amount : Int)
  | companyWithdrawal (amount : Int)
  | paymentToInvestor (amount : Int)
  | moveProjectToReserve (amount : Int)
deriving DecidableEq

def applyBalanceOp (cb : ContractBalance) : BalanceOp → ContractBalance
  | .investment amount i_rate decimals =>
    cb.recalculate_from_investment (Amount.from_investment amount i_rate decimals)
  | .companyContribution amount => cb.recalculate_from_company_contribution amount
  | .companyWithdrawal amount => cb.recalculate_from_company_withdrawal amount
  | .paymentToInvestor amount => cb.recalculate_from_payment_to_investor amount
  | .moveProjectToReserve amount => cb.recalculate_from_project_to_reserver_movement amount

def runBalanceOps (ops : List BalanceOp) : ContractBalance :=
  ops.foldl applyBalanceOp ContractBalance.new

/-! ## Investment-level payment operations (for the lifecycle invariants)

The per-investment view of the two payment entry points of `contract.rs`:
validation, payment processing, reserve check and transfer, in the order the
contract performs them.  The investment is persisted only when the whole
operation succeeds, so the step function keeps the old record on any error. -/

structure PaymentCtx where
  isAdmin : Bool
  now : Nat
  reserve : ContractBalance
  t : TransferOutcome
deriving DecidableEq

/-- The admin path `process_investor_payment`, restricted to the investment
record it mutates. -/
def admin_payment_result (now : Nat) (cd : ContractData) (cb : ContractBalance)
    (t : TransferOutcome) (inv : Investment) : Except Error (Investment × Int) :=
  match validate_investment_payment now inv with
  | .error e => .error e
  | .ok _ =>
    let r := inv.process_investment_payment now cd
    match validate_reserve_balance r.2 cb with
    | .error e => .error e
    | .ok _ =>
      match t.toResult with
      | .error e => .error e
      | .ok _ => .ok r

/-- The investor self-claim path `claim`, restricted to the investment record
it mutates. -/
def claim_payment_result (now : Nat) (cd : ContractData) (cb : ContractBalance)
    (t : TransferOutcome) (inv : Investment) : Except Error (Investment × Int) :=
  match validate_claim now inv with
  | .error e => .error e
  | .ok _ =>
    let num_payments := calculate_claimable_payments now inv cd.return_months
    if ¬ (num_payments > 0) then
      .error .AddressInvestmentNextTransferNotClaimableYet
    else
      let r := inv.process_multiple_payments now cd num_payments
      match validate_reserve_balance r.2 cb with
      | .error e => .error e
      | .ok _ =>
        match t.toResult with
        | .error e => .error e
        | .ok _ => .ok r

def payment_result (cd : ContractData) (c : PaymentCtx) (inv : Investment) :
    Except Error (Investment × Int) :=
  if c.isAdmin then admin_payment_result c.now cd c.reserve c.t inv
  else claim_payment_result c.now cd c.reserve c.t inv

/-- The investment record as persisted after one payment operation: the new
record on success, the old one when the operation was rejected. -/
def payment_step (cd : ContractData) (inv : Investment) (c : PaymentCtx) : Investment :=
  match payment_result cd c inv with
  | .ok r => r.1
  | .error _ => inv

def run_payments (cd : ContractData) (inv : Investment) (ops : List PaymentCtx) :
    Investment :=
  ops.foldl (payment_step cd) inv

/-- Position of a status in the forward lifecycle order
Blocked/Claimable → CashFlowing → Finished. -/
def statusRank : InvestmentStatus → Nat
  | .Blocked => 0
  | .Claimable => 0
  | .CashFlowing => 1
  | .Finished => 2

/-- Well-formedness of a persisted investment relative to the configuration:
the payment counter never exceeds the schedule, the record is `Finished` as
soon as the schedule is exhausted, and the monetary fields are non-negative. -/
def InvestmentWF (cd : ContractData) (inv : Investment) : Prop :=
  inv.payments_transferred ≤ cd.return_months ∧
  (cd.return_months ≤ inv.payments_transferred → inv.status = InvestmentStatus.Finished) ∧
  0 ≤ inv.regular_payment ∧
  0 ≤ inv.deposited

instance (cd : ContractData) (inv : Investment) : Decidable (InvestmentWF cd inv) := by
  unfold InvestmentWF
  infer_instance

/-! ## Shared example values for witnesses -/

/-- A sample configuration: 4 coupon return months, no claim lock,
minimum 100, goal 1000000, nominal rate 500. -/
def cdExample : ContractData :=
  { interest_rate := 500
    claim_block_days := 0
    state := State.Active
    return_type := InvestmentReturnType.Coupon
    return_months := 4
    min_per_investment := 100
    goal := 1000000 }

/-- A sample freshly-created investment under `cdExample` (the field values
are those of `Investment.new 0 cdExample 100000 2 0`). -/
def invExample : Investment :=
  { deposited := 99583
    commission := 416
    accumulated_interests := 4979
    total := 104562
    claimable_ts := 0
    last_transfer_ts := 0
    status := InvestmentStatus.Claimable
    regular_payment := 1244
    paid := 0
    payments_transferred := 0
    token_id := 0 }

/-! ## C2 -/

/-- C2: the claim says `calculate_rate_denominator` equals
`10 + floor((whole_units - 100) / 400)` capped at 60, is non-decreasing in the
deposit and lies in `[10, 60]`.  The code only returns the cap when the
increment `a` itself exceeds 60, so at 20500 whole units it returns 61, at
24100 it returns 70, and at the larger 24500 it falls back to 60 — above the
cap and non-monotone, contradicting the intent of its own
`UPPER_DIVISOR = 60` constant. -/
theorem C2_rate_denominator_eval :
    calculate_rate_denominator 20500 0 = 61 ∧
    calculate_rate_denominator 24100 0 = 70 ∧
    calculate_rate_denominator 24500 0 = 60 ∧
    ¬ (calculate_rate_denominator 20500 0 ≤ UPPER_DIVISOR) ∧
    ¬ (calculate_rate_denominator 24100 0 ≤ calculate_rate_denominator 24500 0) := by
  decide

/-! ## C3 -/

/-- C3: the claim says the three split parts always sum exactly to the
deposit.  On the spec's own worked example (deposit 100000, rate 500,
2 decimals) the code produces 416 + 5000 + 94583 = 99999: each wad value is
truncated separately on conversion back to token scale, so one unit of dust
is lost and the investable part is 94583, not the 94584 the spec's example
demands. -/
theorem C3_split_sum_eval :
    (Amount.from_investment 100000 500 2).amount_to_commission = 416 ∧
    (Amount.from_investment 100000 500 2).amount_to_reserve_fund = 5000 ∧
    (Amount.from_investment 100000 500 2).amount_to_invest = 94583 ∧
    (Amount.from_investment 100000 500 2).amount_to_commission +
      (Amount.from_investment 100000 500 2).amount_to_reserve_fund +
      (Amount.from_investment 100000 500 2).amount_to_invest = 99999 := by
  decide

/-! ## C8 -/

/-- C8: `validate_withdrawal` succeeds iff `amount ≤ project_balance`
(equality allowed, else `ContractInsufficientBalance`), while
`validate_move_to_reserve` succeeds iff `amount < project_balance` strictly
(else `ProjectBalanceInsufficientAmount`); at equality the withdrawal is
accepted and the move is rejected. -/
theorem C8_withdrawal_move_asymmetry (amount project_balance : Int) :
    (validate_withdrawal amount project_balance = .ok () ↔
      amount ≤ project_balance) ∧
    (validate_withdrawal amount project_balance =
        .error .ContractInsufficientBalance ↔ project_balance < amount) ∧
    (validate_move_to_reserve amount project_balance = .ok () ↔
      amount < project_balance) ∧
    (validate_move_to_reserve amount project_balance =
        .error .ProjectBalanceInsufficientAmount ↔ project_balance ≤ amount) ∧
    validate_withdrawal project_balance project_balance = .ok () ∧
    validate_move_to_reserve project_balance project_balance =
      .error .ProjectBalanceInsufficientAmount := by
  unfold validate_withdrawal validate_move_to_reserve
  refine ⟨?_, ?_, ?_, ?_, ?_, ?_⟩ <;> split_ifs <;> simp_all <;> omega

/-! ## C9 -/

/-- C9: when construction succeeded, `min_per_investment > 0` holds, and since
`validate_investment` checks `amount ≥ min_per_investment` first, the final
`amount > 0` check can never fail: `AmountToInvestMustBeGreaterThanZero` is
unreachable from the `invest` entry point. -/
theorem C9_amount_error_unreachable (amount : Int) (cd : ContractData)
    (investor_balance : Int) (hmin : 0 < cd.min_per_investment) :
    validate_investment amount cd investor_balance ≠
      .error .AmountToInvestMustBeGreaterThanZero := by
  unfold validate_investment
  split_ifs <;> simp_all <;> omega

/-- Witness for C9 at a concrete configuration and amount. -/
theorem C9_amount_error_unreachable_witness :
    validate_investment 100 cdExample 100 ≠
      .error .AmountToInvestMustBeGreaterThanZero :=
  C9_amount_error_unreachable 100 cdExample 100 (by decide)

/-! ## C5 -/

/-- C5 counterexample for the claim as stated: at
`now = 2 ^ 32 * SECONDS_IN_MONTH` (a valid u64 second count) on a never-paid
investment with `claimable_ts = 0`, `payments_transferred = 0` and 4 return
months, both of the claim's preconditions hold, yet the code's
`as u32` narrowing of `elapsed / one_month` wraps `2 ^ 32` to `0`, so the
program returns `min (0 + 1) 4 = 1` while the claim's unbounded formula
`min (elapsed / one_month + 1) remaining` gives `min (2 ^ 32 + 1) 4 = 4`. -/
theorem C5_claimable_payments_counterexample :
    invExample.payments_transferred ≤ 4 ∧
    invExample.last_transfer_ts = 0 ∧
    invExample.claimable_ts ≤ 11132555231232000 ∧
    calculate_claimable_payments 11132555231232000 invExample 4 = 1 ∧
    min ((11132555231232000 - invExample.claimable_ts) / SECONDS_IN_MONTH + 1)
      (4 - invExample.payments_transferred) = 4 ∧
    (1 : Nat) ≠ 4 := by
  decide

/-- C5 as amended: under the validated preconditions (`payments_transferred`
within the schedule, and `now` past `claimable_ts` for a never-paid
investment resp. past `last_transfer_ts` otherwise),
`calculate_claimable_payments` returns `min(eligible, remaining)` where the
eligible count carries the `as u32` narrowing of the code:
`eligible = (elapsed / one_month) mod 2 ^ 32 + 1` for a never-paid investment
and `(elapsed / one_month) mod 2 ^ 32` otherwise; the result never exceeds
the remaining periods (and is a `Nat`, so it is never negative). -/
theorem C5_claimable_payments_wrapped (now : Nat) (inv : Investment)
    (return_months : Nat)
    (hpt : inv.payments_transferred ≤ return_months)
    (hts : if inv.last_transfer_ts = 0 then inv.claimable_ts ≤ now
      else inv.last_transfer_ts ≤ now) :
    calculate_claimable_payments now inv return_months =
      min (if inv.last_transfer_ts = 0 then
          (now - inv.claimable_ts) / SECONDS_IN_MONTH % 2 ^ 32 + 1
        else (now - inv.last_transfer_ts) / SECONDS_IN_MONTH % 2 ^ 32)
        (return_months - inv.payments_transferred) ∧
    calculate_claimable_payments now inv return_months ≤
      return_months - inv.payments_transferred := by
  unfold calculate_claimable_payments
  exact ⟨rfl, Nat.min_le_right _ _⟩

/-- Witness for C5: a first-ever claim 60 days past the unlock yields
`min (60 / 30 % 2 ^ 32 + 1) 4` claimable periods, bounded by the 4
remaining. -/
theorem C5_claimable_payments_wrapped_witness :
    calculate_claimable_payments 5184000 invExample 4 ≤
      4 - invExample.payments_transferred :=
  (C5_claimable_payments_wrapped 5184000 invExample 4 (by decide) (by decide)).2

/-! ## C4 -/

/-- The conservation law actually maintained by the `ContractBalance`
mutators: the reserve and project buckets (commission excluded) track the net
of the audited movements, because `recalculate_from_investment` adds only the
reserve and investable parts to `received_so_far`. -/
def BalanceConservation (cb : ContractBalance) : Prop :=
  cb.reserve + cb.project =
    cb.received_so_far + cb.reserve_contributions - cb.payments - cb.project_withdrawals

instance (cb : ContractBalance) : Decidable (BalanceConservation cb) := by
  unfold BalanceConservation
  infer_instance

theorem applyBalanceOp_conservation (cb : ContractBalance) (op : BalanceOp)
    (h : BalanceConservation cb) : BalanceConservation (applyBalanceOp cb op) := by
  cases op <;>
    simp only [BalanceConservation, applyBalanceOp,
      ContractBalance.recalculate_from_investment,
      ContractBalance.recalculate_from_company_contribution,
      ContractBalance.recalculate_from_company_withdrawal,
      ContractBalance.recalculate_from_payment_to_investor,
      ContractBalance.recalculate_from_project_to_reserver_movement] at h ⊢ <;>
    omega

theorem foldl_balance_conservation (ops : List BalanceOp) :
    ∀ cb : ContractBalance, BalanceConservation cb →
      BalanceConservation (ops.foldl applyBalanceOp cb) := by
  induction ops with
  | nil => intro cb h; exact h
  | cons op rest ih =>
    intro cb h
    exact ih (applyBalanceOp cb op) (applyBalanceOp_conservation cb op h)

/-- C4 counterexample: a single investment split of deposit 100000 at nominal
rate 500 on a 2-decimal token, applied to the all-zero balance, gives bucket
sum `reserve + project + comission = 99999` while
`received_so_far + reserve_contributions - payments - project_withdrawals`
is only `99583`: the commission bucket is filled but commission is never
added to `received_so_far`, so the claimed equation fails. -/
theorem C4_conservation_counterexample :
    (runBalanceOps [BalanceOp.investment 100000 500 2]).sum = 99999 ∧
    (runBalanceOps [BalanceOp.investment 100000 500 2]).received_so_far +
        (runBalanceOps [BalanceOp.investment 100000 500 2]).reserve_contributions -
        (runBalanceOps [BalanceOp.investment 100000 500 2]).payments -
        (runBalanceOps [BalanceOp.investment 100000 500 2]).project_withdrawals =
      99583 ∧ (99999 : Int) ≠ 99583 := by
  refine ⟨by decide, by decide, by decide⟩

/-- C4 as amended: after every sequence of balance mutations starting from the
all-zero `ContractBalance`, the sum `reserve + project` (the commission bucket
excluded, since commission never enters `received_so_far`) equals
`received_so_far + reserve_contributions - payments - project_withdrawals`. -/
theorem C4_conservation (ops : List BalanceOp) :
    (runBalanceOps ops).reserve + (runBalanceOps ops).project =
      (runBalanceOps ops).received_so_far +
        (runBalanceOps ops).reserve_contributions -
        (runBalanceOps ops).payments -
        (runBalanceOps ops).project_withdrawals :=
  foldl_balance_conservation ops ContractBalance.new (by decide)

/-! ## C1 : batching equivalence -/

lemma set_cashflowing_eq (inv : Investment) :
    (if inv.status ≠ InvestmentStatus.CashFlowing then
      { inv with status := InvestmentStatus.CashFlowing } else inv) =
    { inv with status := InvestmentStatus.CashFlowing } := by
  obtain ⟨d, c, a, t, cts, lts, st, rp, p, pt, tid⟩ := inv
  by_cases h : st = InvestmentStatus.CashFlowing <;> simp [h]

/-- Branch-free description of `process_investment_payment`. -/
lemma process_single_closed (inv : Investment) (now : Nat) (cd : ContractData) :
    inv.process_investment_payment now cd =
      if inv.payments_transferred + 1 ≥ cd.return_months then
        (if cd.return_type = InvestmentReturnType.Coupon then
          ({ inv with
              status := InvestmentStatus.Finished
              paid := inv.paid + inv.regular_payment + inv.deposited
              last_transfer_ts := now
              payments_transferred := inv.payments_transferred + 1 },
            inv.regular_payment + inv.deposited)
        else
          ({ inv with
              status := InvestmentStatus.Finished
              paid := inv.paid + inv.regular_payment
              last_transfer_ts := now
              payments_transferred := inv.payments_transferred + 1 },
            inv.regular_payment))
      else
        ({ inv with
            status := InvestmentStatus.CashFlowing
            paid := inv.paid + inv.regular_payment
            last_transfer_ts := now
            payments_transferred := inv.payments_transferred + 1 },
          inv.regular_payment) := by
  unfold Investment.process_investment_payment
  rw [set_cashflowing_eq]

/-- Branch-free description of `process_multiple_payments`. -/
lemma process_multi_closed (inv : Investment) (now : Nat) (cd : ContractData) (n : Nat) :
    inv.process_multiple_payments now cd n =
      if inv.payments_transferred + n ≥ cd.return_months then
        (if cd.return_type = InvestmentReturnType.Coupon then
          ({ inv with
              status := InvestmentStatus.Finished
              paid := inv.paid + inv.regular_payment * (n : Int) + inv.deposited
              last_transfer_ts := now
              payments_transferred := inv.payments_transferred + n },
            inv.regular_payment * (n : Int) + inv.deposited)
        else
          ({ inv with
              status := InvestmentStatus.Finished
              paid := inv.paid + inv.regular_payment * (n : Int)
              last_transfer_ts := now
              payments_transferred := inv.payments_transferred + n },
            inv.regular_payment * (n : Int)))
      else
        ({ inv with
            status := InvestmentStatus.CashFlowing
            paid := inv.paid + inv.regular_payment * (n : Int)
            last_transfer_ts := now
            payments_transferred := inv.payments_transferred + n },
          inv.regular_payment * (n : Int)) := by
  unfold Investment.process_multiple_payments
  rw [set_cashflowing_eq]

lemma iterate_zero (inv : Investment) (now : Nat) (cd : ContractData) :
    iterate_payments inv now cd 0 = (inv, 0) := rfl

lemma iterate_succ (inv : Investment) (now : Nat) (cd : ContractData) (n : Nat) :
    iterate_payments inv now cd (n + 1) =
      ((iterate_payments (inv.process_investment_payment now cd).1 now cd n).1,
        (inv.process_investment_payment now cd).2 +
          (iterate_payments (inv.process_investment_payment now cd).1 now cd n).2) := rfl

lemma iterate_one (inv : Investment) (now : Nat) (cd : ContractData) :
    iterate_payments inv now cd 1 = inv.process_investment_payment now cd := by
  rw [iterate_succ, iterate_zero]
  simp

/-- C1 as amended: for every investment and every n with
`1 ≤ n ≤ return_months - payments_transferred`, one batched
`process_multiple_payments` call with `num_payments = n` produces exactly the
same final investment record (hence the same `paid`, `payments_transferred`,
`status` and `last_transfer_ts`) and the same total transferred amount as `n`
sequential `process_investment_payment` calls at the same timestamp, the
Coupon terminal principal bullet included. -/
theorem C1_batch_equals_sequential :
    ∀ (n : Nat), 1 ≤ n → ∀ (inv : Investment) (now : Nat) (cd : ContractData),
      n ≤ cd.return_months - inv.payments_transferred →
      inv.process_multiple_payments now cd n = iterate_payments inv now cd n := by
  intro n
  induction n with
  | zero => intro h; omega
  | succ n ih =>
    intro _ inv now cd h2
    have hpt : inv.payments_transferred + (n + 1) ≤ cd.return_months := by omega
    rcases Nat.eq_zero_or_pos n with hn | hn
    · subst hn
      rw [iterate_one, process_multi_closed, process_single_closed]
      norm_num
    · have hlt : ¬ (inv.payments_transferred + 1 ≥ cd.return_months) := by omega
      have h1 := process_single_closed inv now cd
      rw [if_neg hlt] at h1
      rw [iterate_succ, h1]
      simp only []
      rw [← ih hn _ now cd (by simp; omega)]
      rw [process_multi_closed, process_multi_closed]
      simp only []
      split_ifs with hc1 hc2 hc3 <;>
        first
          | omega
          | (simp only [Prod.mk.injEq, Investment.mk.injEq, eq_self_iff_true, true_and,
               and_true]
             push_cast
             refine ⟨⟨?_, ?_⟩, ?_⟩ <;> ring)

/-- Witness for C1: a full 4-period Coupon batch on a concrete investment
equals four sequential single payments, bullet principal included. -/
theorem C1_batch_equals_sequential_witness :
    invExample.process_multiple_payments 1000 cdExample 4 =
      iterate_payments invExample 1000 cdExample 4 :=
  C1_batch_equals_sequential 4 (by decide) invExample 1000 cdExample (by decide)

/-- C1 counterexample for the claim as stated: at `n = 0`
(`0 ≤ remaining periods` holds) the batched call still overwrites `status`
with `CashFlowing` and `last_transfer_ts` with `now`, while zero sequential
calls change nothing, so the final states differ. -/
theorem C1_batch_zero_counterexample :
    0 ≤ cdExample.return_months - invExample.payments_transferred ∧
    ¬ ((invExample.process_multiple_payments 777 cdExample 0).1.paid =
          (iterate_payments invExample 777 cdExample 0).1.paid ∧
        (invExample.process_multiple_payments 777 cdExample 0).1.payments_transferred =
          (iterate_payments invExample 777 cdExample 0).1.payments_transferred ∧
        (invExample.process_multiple_payments 777 cdExample 0).1.status =
          (iterate_payments invExample 777 cdExample 0).1.status ∧
        (invExample.process_multiple_payments 777 cdExample 0).1.last_transfer_ts =
          (iterate_payments invExample 777 cdExample 0).1.last_transfer_ts ∧
        (invExample.process_multiple_payments 777 cdExample 0).2 =
          (iterate_payments invExample 777 cdExample 0).2) := by
  decide


/-! ## C6 : lifecycle invariants along payment sequences -/


lemma validate_investment_payment_ok (now : Nat) (inv : Investment)
    (h : validate_investment_payment now inv = .ok ()) :
    inv.claimable_ts ≤ now ∧ inv.status ≠ InvestmentStatus.Finished := by
  unfold validate_investment_payment at h
  split_ifs at h <;> simp_all <;> omega

lemma validate_claim_ok (now : Nat) (inv : Investment)
    (h : validate_claim now inv = .ok ()) :
    inv.claimable_ts ≤ now ∧ inv.status ≠ InvestmentStatus.Finished := by
  unfold validate_claim at h
  split_ifs at h <;> simp_all <;> omega

lemma statusRank_le_one (st : InvestmentStatus) (h : st ≠ InvestmentStatus.Finished) :
    statusRank st ≤ 1 := by
  cases st <;> first | decide | exact absurd rfl h

lemma admin_step_props (now : Nat) (cd : ContractData) (cb : ContractBalance)
    (t : TransferOutcome) (inv inv' : Investment) (amt : Int)
    (hwf : InvestmentWF cd inv)
    (h : admin_payment_result now cd cb t inv = .ok (inv', amt)) :
    InvestmentWF cd inv' ∧ inv.paid ≤ inv'.paid ∧
      statusRank inv.status ≤ statusRank inv'.status := by
  unfold admin_payment_result at h
  cases hv : validate_investment_payment now inv with
  | error e => rw [hv] at h; simp at h
  | ok u =>
    cases u
    obtain ⟨hts, hnf⟩ := validate_investment_payment_ok now inv hv
    rw [hv] at h
    simp only [] at h
    rw [process_single_closed] at h
    obtain ⟨hpt, hfin, hrp, hdep⟩ := hwf
    have hlt : inv.payments_transferred < cd.return_months := by
      rcases Nat.lt_or_ge inv.payments_transferred cd.return_months with hl | hg
      · exact hl
      · exact absurd (hfin hg) hnf
    split_ifs at h with hterm hcoupon <;>
      cases hr : validate_reserve_balance _ cb <;> rw [hr] at h <;>
      cases ht : t.toResult <;> rw [ht] at h <;> simp at h <;>
      obtain ⟨h1, h2⟩ := h <;> subst h1 <;>
      refine ⟨⟨by simp <;> omega, by simp <;> omega, by simpa using hrp,
        by simpa using hdep⟩,
        by simp <;> omega,
        le_trans (statusRank_le_one _ hnf) (by simp [statusRank])⟩

lemma claim_step_props (now : Nat) (cd : ContractData) (cb : ContractBalance)
    (t : TransferOutcome) (inv inv' : Investment) (amt : Int)
    (hwf : InvestmentWF cd inv)
    (h : claim_payment_result now cd cb t inv = .ok (inv', amt)) :
    InvestmentWF cd inv' ∧ inv.paid ≤ inv'.paid ∧
      statusRank inv.status ≤ statusRank inv'.status := by
  unfold claim_payment_result at h
  cases hv : validate_claim now inv with
  | error e => rw [hv] at h; simp at h
  | ok u =>
    cases u
    obtain ⟨hts, hnf⟩ := validate_claim_ok now inv hv
    rw [hv] at h
    simp only [] at h
    obtain ⟨hpt, hfin, hrp, hdep⟩ := hwf
    have hnum_le : calculate_claimable_payments now inv cd.return_months ≤
        cd.return_months - inv.payments_transferred :=
      Nat.min_le_right _ _
    have hmul : 0 ≤ inv.regular_payment *
        ((calculate_claimable_payments now inv cd.return_months : Nat) : Int) :=
      mul_nonneg hrp (by positivity)
    rw [process_multi_closed] at h
    split_ifs at h with hng hterm hcoupon <;> simp at h <;>
      cases hr : validate_reserve_balance _ cb <;> rw [hr] at h <;>
      cases ht : t.toResult <;> rw [ht] at h <;> simp at h <;>
      obtain ⟨h1, h2⟩ := h <;> subst h1 <;>
      refine ⟨⟨by simp <;> omega, by simp <;> omega, by simpa using hrp,
        by simpa using hdep⟩,
        by simp <;> omega,
        le_trans (statusRank_le_one _ hnf) (by simp [statusRank])⟩



lemma payment_result_ok_not_finished (cd : ContractData) (c : PaymentCtx)
    (inv : Investment) (r : Investment × Int)
    (h : payment_result cd c inv = .ok r) :
    inv.status ≠ InvestmentStatus.Finished := by
  unfold payment_result at h
  split_ifs at h
  · unfold admin_payment_result at h
    cases hv : validate_investment_payment c.now inv with
    | error e => rw [hv] at h; simp at h
    | ok u => cases u; exact (validate_investment_payment_ok _ _ hv).2
  · unfold claim_payment_result at h
    cases hv : validate_claim c.now inv with
    | error e => rw [hv] at h; simp at h
    | ok u => cases u; exact (validate_claim_ok _ _ hv).2

lemma payment_result_finished (cd : ContractData) (c : PaymentCtx) (inv : Investment)
    (hf : inv.status = InvestmentStatus.Finished) (hts : inv.claimable_ts ≤ c.now) :
    payment_result cd c inv = .error .AddressInvestmentIsFinished := by
  have hv1 : validate_investment_payment c.now inv =
      .error .AddressInvestmentIsFinished := by
    unfold validate_investment_payment
    rw [if_neg (not_not_intro hts), if_pos (not_not_intro hf)]
  have hv2 : validate_claim c.now inv = .error .AddressInvestmentIsFinished := by
    unfold validate_claim
    rw [if_neg (not_not_intro hts), if_pos (not_not_intro hf)]
  unfold payment_result admin_payment_result claim_payment_result
  split_ifs
  · rw [hv1]
  · rw [hv2]

lemma payment_step_finished (cd : ContractData) (c : PaymentCtx) (inv : Investment)
    (hf : inv.status = InvestmentStatus.Finished) :
    payment_step cd inv c = inv := by
  unfold payment_step
  cases hres : payment_result cd c inv with
  | ok r => exact absurd hf (payment_result_ok_not_finished cd c inv r hres)
  | error e => rfl

lemma step_props (cd : ContractData) (c : PaymentCtx) (inv : Investment)
    (hwf : InvestmentWF cd inv) :
    InvestmentWF cd (payment_step cd inv c) ∧
      inv.paid ≤ (payment_step cd inv c).paid ∧
      statusRank inv.status ≤ statusRank (payment_step cd inv c).status := by
  unfold payment_step
  cases hres : payment_result cd c inv with
  | error e => exact ⟨hwf, le_refl _, le_refl _⟩
  | ok r =>
    obtain ⟨inv', amt⟩ := r
    unfold payment_result at hres
    split_ifs at hres
    · exact admin_step_props c.now cd c.reserve c.t inv inv' amt hwf hres
    · exact claim_step_props c.now cd c.reserve c.t inv inv' amt hwf hres

lemma run_payments_cons (cd : ContractData) (inv : Investment) (c : PaymentCtx)
    (ops : List PaymentCtx) :
    run_payments cd inv (c :: ops) = run_payments cd (payment_step cd inv c) ops := rfl

lemma run_props (cd : ContractData) (ops : List PaymentCtx) :
    ∀ inv : Investment, InvestmentWF cd inv →
      InvestmentWF cd (run_payments cd inv ops) ∧
        inv.paid ≤ (run_payments cd inv ops).paid ∧
        statusRank inv.status ≤ statusRank (run_payments cd inv ops).status := by
  induction ops with
  | nil => intro inv hwf; exact ⟨hwf, le_refl _, le_refl _⟩
  | cons c ops ih =>
    intro inv hwf
    have hs := step_props cd c inv hwf
    have hr := ih _ hs.1
    rw [run_payments_cons]
    exact ⟨hr.1, le_trans hs.2.1 hr.2.1, le_trans hs.2.2 hr.2.2⟩

lemma run_payments_finished (cd : ContractData) (ops : List PaymentCtx) :
    ∀ inv : Investment, inv.status = InvestmentStatus.Finished →
      run_payments cd inv ops = inv := by
  induction ops with
  | nil => intro inv _; rfl
  | cons c ops ih =>
    intro inv hf
    rw [run_payments_cons, payment_step_finished cd c inv hf]
    exact ih inv hf

/-- C6: along every sequence of validated payment operations (admin single
payment and investor self-claim, whose `num_payments` is
`calculate_claimable_payments`, capped by the remaining periods), a
well-formed investment keeps `payments_transferred ≤ return_months`, its
`paid` never decreases, its status only moves forward in the order
Blocked/Claimable → CashFlowing → Finished, once `Finished` the whole
sequence leaves the record unchanged, and a payment operation attempted on a
`Finished` investment past its claimable date is rejected with
`AddressInvestmentIsFinished`. -/
theorem C6_lifecycle_invariants (cd : ContractData) (inv : Investment)
    (ops : List PaymentCtx) (hwf : InvestmentWF cd inv) :
    InvestmentWF cd (run_payments cd inv ops) ∧
    inv.paid ≤ (run_payments cd inv ops).paid ∧
    statusRank inv.status ≤ statusRank (run_payments cd inv ops).status ∧
    (run_payments cd inv ops).payments_transferred ≤ cd.return_months ∧
    (inv.status = InvestmentStatus.Finished → run_payments cd inv ops = inv) ∧
    (∀ c : PaymentCtx, inv.status = InvestmentStatus.Finished →
      inv.claimable_ts ≤ c.now →
      payment_result cd c inv = .error .AddressInvestmentIsFinished) := by
  have hr := run_props cd ops inv hwf
  exact ⟨hr.1, hr.2.1, hr.2.2, hr.1.1,
    fun hf => run_payments_finished cd ops inv hf,
    fun c hf hts => payment_result_finished cd c inv hf hts⟩

def opsExample : List PaymentCtx :=
  [{ isAdmin := true, now := 10,
     reserve := { ContractBalance.new with reserve := 1000000 }, t := .Done },
   { isAdmin := false, now := 2592020,
     reserve := { ContractBalance.new with reserve := 1000000 }, t := .Done }]

/-- Witness for C6 on a concrete two-operation trace (one admin payment, one
investor self-claim a month later). -/
theorem C6_lifecycle_invariants_witness :
    (run_payments cdExample invExample opsExample).payments_transferred ≤
      cdExample.return_months :=
  (C6_lifecycle_invariants cdExample invExample opsExample (by decide)).2.2.2.1



/-! ## C7 : rejected operations perform zero mutation -/


lemma invest_error_no_mutation (s : Storage) (now : Nat) (investor_balance : Int)
    (decimals : Nat) (t : TransferOutcome) (token_id : Nat) (amount : Int) (e : Error)
    (h : (invest s now investor_balance decimals t token_id amount).2 = .error e) :
    (invest s now investor_balance decimals t token_id amount).1 = s := by
  unfold invest at h ⊢
  dsimp only at h ⊢
  cases h1 : validate_investment amount s.contract_data investor_balance with
  | error e1 => rfl
  | ok u1 =>
    cases u1
    rw [h1] at h
    cases h2 : validate_investment_goal s.get_balances_or_new.received_so_far
        (Amount.from_investment amount s.contract_data.interest_rate
          decimals).get_invested_amount s.contract_data.goal with
    | error e2 => rfl
    | ok u2 =>
      cases u2
      rw [h2] at h
      cases h3 : t.toResult with
      | error e3 => rfl
      | ok u3 => cases u3; rw [h3] at h; simp at h



lemma process_investor_payment_error_no_mutation (s : Storage) (now : Nat)
    (t : TransferOutcome) (token_id : Nat) (e : Error)
    (h : (process_investor_payment s now t token_id).2 = .error e) :
    (process_investor_payment s now t token_id).1 = s := by
  unfold process_investor_payment at h ⊢
  dsimp only at h ⊢
  cases h0 : s.get_investment token_id with
  | none => rfl
  | some investment =>
    rw [h0] at h
    dsimp only at h ⊢
    cases h1 : validate_investment_payment now investment with
    | error e1 => rfl
    | ok u1 =>
      cases u1
      rw [h1] at h
      cases h2 : validate_reserve_balance
          (investment.process_investment_payment now s.contract_data).2
          s.get_balances_or_new with
      | error e2 => rfl
      | ok u2 =>
        cases u2
        rw [h2] at h
        cases h3 : t.toResult with
        | error e3 => rfl
        | ok u3 => cases u3; rw [h3] at h; simp at h

lemma claim_error_no_mutation (s : Storage) (now : Nat) (t : TransferOutcome)
    (token_id : Nat) (e : Error)
    (h : (claim s now t token_id).2 = .error e) :
    (claim s now t token_id).1 = s := by
  unfold claim at h ⊢
  dsimp only at h ⊢
  cases h0 : s.get_investment token_id with
  | none => rfl
  | some investment =>
    rw [h0] at h
    dsimp only at h ⊢
    cases h1 : validate_claim now investment with
    | error e1 => rfl
    | ok u1 =>
      cases u1
      rw [h1] at h
      by_cases hng : calculate_claimable_payments now investment
          s.contract_data.return_months > 0
      · rw [if_neg (not_not_intro hng)] at h ⊢
        cases h2 : validate_reserve_balance
            (investment.process_multiple_payments now s.contract_data
              (calculate_claimable_payments now investment
                s.contract_data.return_months)).2
            s.get_balances_or_new with
        | error e2 => rfl
        | ok u2 =>
          cases u2
          rw [h2] at h
          cases h3 : t.toResult with
          | error e3 => rfl
          | ok u3 => cases u3; rw [h3] at h; simp at h
      · rw [if_pos hng] at h ⊢

lemma single_withdrawn_error_no_mutation (s : Storage) (t : TransferOutcome)
    (amount : Int) (e : Error)
    (h : (single_withdrawn s t amount).2 = .error e) :
    (single_withdrawn s t amount).1 = s := by
  unfold single_withdrawn at h ⊢
  dsimp only at h ⊢
  cases h1 : validate_withdrawal amount s.get_balances_or_new.project with
  | error e1 => rfl
  | ok u1 =>
    cases u1
    rw [h1] at h
    cases h2 : t.toResult with
    | error e2 => rfl
    | ok u2 => cases u2; rw [h2] at h; simp at h

lemma add_company_transfer_error_no_mutation (s : Storage) (owner_balance : Int)
    (t : TransferOutcome) (amount : Int) (e : Error)
    (h : (add_company_transfer s owner_balance t amount).2 = .error e) :
    (add_company_transfer s owner_balance t amount).1 = s := by
  unfold add_company_transfer at h ⊢
  dsimp only at h ⊢
  cases h1 : validate_company_transfer owner_balance amount with
  | error e1 => rfl
  | ok u1 =>
    cases u1
    rw [h1] at h
    cases h2 : t.toResult with
    | error e2 => rfl
    | ok u2 => cases u2; rw [h2] at h; simp at h

lemma move_funds_error_no_mutation (s : Storage) (amount : Int) (e : Error)
    (h : (move_funds_to_the_reserve s amount).2 = .error e) :
    (move_funds_to_the_reserve s amount).1 = s := by
  unfold move_funds_to_the_reserve at h ⊢
  dsimp only at h ⊢
  cases h1 : validate_move_to_reserve amount s.get_balances_or_new.project with
  | error e1 => rfl
  | ok u1 => cases u1; rw [h1] at h; simp at h

/-- C7: every public operation (`invest`, `process_investor_payment`,
`claim`, `single_withdrawn`, `add_company_transfer`,
`move_funds_to_the_reserve`) that returns an error performs zero observable
mutation: every error path returns before any stored `Investment`,
`ContractBalance`, `Claim` or `ContractData` is written, so the persisted
storage after a rejected operation is exactly the input storage. -/
theorem C7_error_no_mutation (s : Storage) (now : Nat) (investor_balance : Int)
    (decimals : Nat) (t : TransferOutcome) (token_id : Nat) (amount : Int)
    (owner_balance : Int) (e : Error) :
    ((invest s now investor_balance decimals t token_id amount).2 = .error e →
      (invest s now investor_balance decimals t token_id amount).1 = s) ∧
    ((process_investor_payment s now t token_id).2 = .error e →
      (process_investor_payment s now t token_id).1 = s) ∧
    ((claim s now t token_id).2 = .error e → (claim s now t token_id).1 = s) ∧
    ((single_withdrawn s t amount).2 = .error e →
      (single_withdrawn s t amount).1 = s) ∧
    ((add_company_transfer s owner_balance t amount).2 = .error e →
      (add_company_transfer s owner_balance t amount).1 = s) ∧
    ((move_funds_to_the_reserve s amount).2 = .error e →
      (move_funds_to_the_reserve s amount).1 = s) :=
  ⟨invest_error_no_mutation s now investor_balance decimals t token_id amount e,
    process_investor_payment_error_no_mutation s now t token_id e,
    claim_error_no_mutation s now t token_id e,
    single_withdrawn_error_no_mutation s t amount e,
    add_company_transfer_error_no_mutation s owner_balance t amount e,
    move_funds_error_no_mutation s amount e⟩

def storageExample : Storage :=
  { contract_data := cdExample
    investments := [(0, invExample)]
    claims_map := []
    balances := some { ContractBalance.new with reserve := 100000, project := 50000 } }

/-- Witness for C7: investing below the configured minimum is rejected and
leaves a concrete storage unchanged. -/
theorem C7_error_no_mutation_witness :
    (invest storageExample 5 1000000 2 TransferOutcome.Done 1 50).1 = storageExample :=
  (C7_error_no_mutation storageExample 5 1000000 2 TransferOutcome.Done 1 50 0
      Error.AmountLessThanMinimum).1 rfl



/-! ## C10 : balance frame effect of successful payments -/


lemma process_single_amount (inv : Investment) (now : Nat) (cd : ContractData) :
    (inv.process_investment_payment now cd).2 =
      (inv.process_investment_payment now cd).1.paid - inv.paid := by
  rw [process_single_closed]
  split_ifs <;> simp <;> ring

lemma process_multi_amount (inv : Investment) (now : Nat) (cd : ContractData)
    (n : Nat) :
    (inv.process_multiple_payments now cd n).2 =
      (inv.process_multiple_payments now cd n).1.paid - inv.paid := by
  rw [process_multi_closed]
  split_ifs <;> simp <;> ring

/-- The balance change a successful payment is allowed to make: reserve down
by the paid delta, the payments accumulator up by the same delta, every other
field untouched. -/
def BalanceFrame (s s' : Storage) (delta : Int) : Prop :=
  s'.get_balances_or_new.project = s.get_balances_or_new.project ∧
  s'.get_balances_or_new.comission = s.get_balances_or_new.comission ∧
  s'.get_balances_or_new.received_so_far = s.get_balances_or_new.received_so_far ∧
  s'.get_balances_or_new.reserve_contributions =
    s.get_balances_or_new.reserve_contributions ∧
  s'.get_balances_or_new.project_withdrawals =
    s.get_balances_or_new.project_withdrawals ∧
  s'.get_balances_or_new.moved_from_project_to_reserve =
    s.get_balances_or_new.moved_from_project_to_reserve ∧
  s'.get_balances_or_new.reserve = s.get_balances_or_new.reserve - delta ∧
  s'.get_balances_or_new.payments = s.get_balances_or_new.payments + delta

instance (s s' : Storage) (delta : Int) : Decidable (BalanceFrame s s' delta) := by
  unfold BalanceFrame
  infer_instance

/-- C10: every successful payment to an investor (admin
`process_investor_payment` or investor `claim`) changes the `ContractBalance`
only through `recalculate_from_payment_to_investor`: the reserve decreases by
exactly the transferred amount (which equals the increase of the
investment's `paid` field), the payments accumulator increases by the same
amount, and `project`, `comission`, `received_so_far`,
`reserve_contributions`, `project_withdrawals` and
`moved_from_project_to_reserve` are unchanged. -/
theorem C10_payment_balance_frame (s : Storage) (now : Nat) (t : TransferOutcome)
    (token_id : Nat) (inv0 inv' : Investment)
    (h0 : s.get_investment token_id = some inv0) :
    ((process_investor_payment s now t token_id).2 = .ok inv' →
      BalanceFrame s (process_investor_payment s now t token_id).1
        (inv'.paid - inv0.paid)) ∧
    ((claim s now t token_id).2 = .ok inv' →
      BalanceFrame s (claim s now t token_id).1 (inv'.paid - inv0.paid)) := by
  constructor
  · intro h
    unfold process_investor_payment at h ⊢
    dsimp only at h ⊢
    rw [h0] at h ⊢
    dsimp only at h ⊢
    cases h1 : validate_investment_payment now inv0 with
    | error e1 => rw [h1] at h; simp at h
    | ok u1 =>
      cases u1
      rw [h1] at h
      dsimp only at h ⊢
      cases h2 : validate_reserve_balance
          (inv0.process_investment_payment now s.contract_data).2
          s.get_balances_or_new with
      | error e2 => rw [h2] at h; simp at h
      | ok u2 =>
        cases u2
        rw [h2] at h
        dsimp only at h ⊢
        cases h3 : t.toResult with
        | error e3 => rw [h3] at h; simp at h
        | ok u3 =>
          cases u3
          rw [h3] at h
          dsimp only at h ⊢
          simp only [Except.ok.injEq] at h
          subst h
          have hamt := process_single_amount inv0 now s.contract_data
          refine ⟨by simp [Storage.update_contract_balances,
              Storage.update_investment_with_claim, Storage.get_balances_or_new,
              ContractBalance.recalculate_from_payment_to_investor],
            by simp [Storage.update_contract_balances,
              Storage.update_investment_with_claim, Storage.get_balances_or_new,
              ContractBalance.recalculate_from_payment_to_investor],
            by simp [Storage.update_contract_balances,
              Storage.update_investment_with_claim, Storage.get_balances_or_new,
              ContractBalance.recalculate_from_payment_to_investor],
            by simp [Storage.update_contract_balances,
              Storage.update_investment_with_claim, Storage.get_balances_or_new,
              ContractBalance.recalculate_from_payment_to_investor],
            by simp [Storage.update_contract_balances,
              Storage.update_investment_with_claim, Storage.get_balances_or_new,
              ContractBalance.recalculate_from_payment_to_investor],
            by simp [Storage.update_contract_balances,
              Storage.update_investment_with_claim, Storage.get_balances_or_new,
              ContractBalance.recalculate_from_payment_to_investor],
            ?_, ?_⟩
          · simp [Storage.update_contract_balances,
              Storage.update_investment_with_claim, Storage.get_balances_or_new,
              ContractBalance.recalculate_from_payment_to_investor]
            exact hamt
          · simp [Storage.update_contract_balances,
              Storage.update_investment_with_claim, Storage.get_balances_or_new,
              ContractBalance.recalculate_from_payment_to_investor]
            exact hamt
  · intro h
    unfold claim at h ⊢
    dsimp only at h ⊢
    rw [h0] at h ⊢
    dsimp only at h ⊢
    cases h1 : validate_claim now inv0 with
    | error e1 => rw [h1] at h; simp at h
    | ok u1 =>
      cases u1
      rw [h1] at h
      dsimp only at h ⊢
      by_cases hng : calculate_claimable_payments now inv0
          s.contract_data.return_months > 0
      · rw [if_neg (not_not_intro hng)] at h ⊢
        cases h2 : validate_reserve_balance
            (inv0.process_multiple_payments now s.contract_data
              (calculate_claimable_payments now inv0
                s.contract_data.return_months)).2
            s.get_balances_or_new with
        | error e2 => rw [h2] at h; simp at h
        | ok u2 =>
          cases u2
          rw [h2] at h
          dsimp only at h ⊢
          cases h3 : t.toResult with
          | error e3 => rw [h3] at h; simp at h
          | ok u3 =>
            cases u3
            rw [h3] at h
            dsimp only at h ⊢
            simp only [Except.ok.injEq] at h
            subst h
            have hamt := process_multi_amount inv0 now s.contract_data
              (calculate_claimable_payments now inv0 s.contract_data.return_months)
            refine ⟨by simp [Storage.update_contract_balances,
                Storage.update_investment_with_claim, Storage.get_balances_or_new,
                ContractBalance.recalculate_from_payment_to_investor],
              by simp [Storage.update_contract_balances,
                Storage.update_investment_with_claim, Storage.get_balances_or_new,
                ContractBalance.recalculate_from_payment_to_investor],
              by simp [Storage.update_contract_balances,
                Storage.update_investment_with_claim, Storage.get_balances_or_new,
                ContractBalance.recalculate_from_payment_to_investor],
              by simp [Storage.update_contract_balances,
                Storage.update_investment_with_claim, Storage.get_balances_or_new,
                ContractBalance.recalculate_from_payment_to_investor],
              by simp [Storage.update_contract_balances,
                Storage.update_investment_with_claim, Storage.get_balances_or_new,
                ContractBalance.recalculate_from_payment_to_investor],
              by simp [Storage.update_contract_balances,
                Storage.update_investment_with_claim, Storage.get_balances_or_new,
                ContractBalance.recalculate_from_payment_to_investor],
              ?_, ?_⟩
            · simp [Storage.update_contract_balances,
                Storage.update_investment_with_claim, Storage.get_balances_or_new,
                ContractBalance.recalculate_from_payment_to_investor]
              exact hamt
            · simp [Storage.update_contract_balances,
                Storage.update_investment_with_claim, Storage.get_balances_or_new,
                ContractBalance.recalculate_from_payment_to_investor]
              exact hamt
      · rw [if_pos hng] at h
        simp at h


/-- The record produced by one successful admin payment on `invExample`. -/
def inv1Example : Investment :=
  { invExample with
    status := InvestmentStatus.CashFlowing
    paid := 1244
    last_transfer_ts := 10
    payments_transferred := 1 }

/-- Witness for C10: a concrete successful admin payment moves 1244 from the
reserve into the payments accumulator and touches nothing else. -/
theorem C10_payment_balance_frame_witness :
    BalanceFrame storageExample
      (process_investor_payment storageExample 10 TransferOutcome.Done 0).1
      (inv1Example.paid - invExample.paid) :=
  (C10_payment_balance_frame storageExample 10 TransferOutcome.Done 0 invExample
      inv1Example (by rfl)).1 (by rfl)

end Equillar
